import Mathlib

/-!
# Verification of `pyiceberg/transforms.py`

A shallow embedding of the partition-transform module of the iceberg
repository (`src/python/pyiceberg/transforms.py`), together with theorems
settling the frozen claims about it.

Conventions of the embedding:
* Python strings are modelled as `List Char` (one element per code unit).
* Python `int` is modelled as `Int`; Python's `%` operator (sign of the
  divisor for a nonzero divisor) is modelled by `Int.fmod`.
* Fallible operations return `Except`.  The module distinguishes two error
  vocabularies, following spec §7: `ParseError` for specifier parsing and
  `UnsupportedTransformError` for invoking a value-mapping function that is
  not available (in the Python source these surface as `ValueError` /
  `AttributeError`).
* Code of the repository that is imported by `transforms.py` but not among
  the provided sources (`pyiceberg.types`, `pyiceberg.utils.parsing`,
  `pyiceberg.utils.decimal`) is modelled from the spec; each such
  definition carries a doc comment saying so.
-/

namespace Iceberg

/-- Modelled from the spec: the source type system (`pyiceberg.types`) is not
among the provided sources.  Spec §6 describes the consumed interface as a
closed set of type-kind queries (integer, long, date, time, timestamp,
timestamptz, decimal, string, fixed, binary, UUID, plus an
"is this type primitive" query), so the type system is embedded as a closed
enumeration of type kinds; the extra primitive kinds (boolean, float, double)
and the non-primitive kinds (struct, list, map) witness types outside the
per-transform allow-lists. -/
inductive IcebergType
  | integer
  | long
  | date
  | time
  | timestamp
  | timestamptz
  | decimal
  | string
  | fixed
  | binary
  | uuid
  | boolean
  | float
  | double
  | structKind
  | listKind
  | mapKind
deriving DecidableEq, Repr

/-- Modelled from the spec: `is_primitive` type-kind query of
`pyiceberg.types` (spec §6); nested kinds (struct, list, map) are the
non-primitive ones. -/
def IcebergType.is_primitive : IcebergType → Bool
  | .structKind => false
  | .listKind => false
  | .mapKind => false
  | _ => true

/-- Modelled from the spec: `IntegerType.max` of `pyiceberg.types` — the
mask used at lines 159/211 of `transforms.py`; spec §4.3 pins it as the
non-negative 31-bit range, i.e. `2^31 - 1`. -/
def IntegerTypeMax : Int := 2147483647

/-- A Python runtime value as it flows through the value-mapping functions:
`none` is Python's `None`, the other constructors are the runtime kinds the
transforms dispatch on.  A `Decimal` is carried as its unscaled integer
value together with its scale; a UUID as its 128-bit integer value. -/
inductive PyValue
  | none
  | int (i : Int)
  | str (s : List Char)
  | bytes (b : List UInt8)
  | dec (unscaled : Int) (scale : Nat)
  | uuid (n : Nat)
deriving DecidableEq, Repr

/-- Python truthiness of the modelled values: `None`, `0`, the empty string,
the empty bytes and a zero `Decimal` are falsy; a `uuid.UUID` object is
always truthy.  This is the `if v else None` test used at lines 159, 211 and
316 of `transforms.py`. -/
def PyValue.truthy : PyValue → Bool
  | .none => false
  | .int i => i != 0
  | .str s => !s.isEmpty
  | .bytes b => !b.isEmpty
  | .dec u _ => u != 0
  | .uuid _ => true

/-- Spec §7 parse-failure vocabulary: raised (as `ValueError`) by the
bracket-specifier parser. -/
inductive ParseError
  | parseError (msg : List Char)
deriving DecidableEq, Repr

/-- Spec §7 vocabulary for invoking a value-mapping function that is not
available: raised as `AttributeError` by `UnknownTransform.transform`
(line 400) and as `ValueError` by `BucketTransform.transform` (line 208) and
`TruncateTransform.transform` (line 314) on a source type that fails
`can_transform`. -/
inductive UnsupportedTransformError
  | unsupported (msg : List Char)
deriving DecidableEq, Repr

/-! ## String helpers (over `List Char`) -/

/-- `s.startswith p` on the char-list model of Python strings. -/
def startsWithL : List Char → List Char → Bool
  | [], _ => true
  | _ :: _, [] => false
  | p :: ps, c :: cs => p == c && startsWithL ps cs

/-- Digit run accepted by the integer parse of the bracket parameter. -/
def parseDigits? (cs : List Char) : Option Nat :=
  if cs ≠ [] ∧ cs.all Char.isDigit then
    some (cs.foldl (fun a c => 10 * a + (c.toNat - 48)) 0)
  else
    none

/-- Integer parse of the bracket parameter: an optional leading minus sign
followed by a nonempty digit run (decimal). -/
def parseIntL (cs : List Char) : Option Int :=
  if cs.head? = some '-' then
    (parseDigits? cs.tail).map (fun m => -(m : Int))
  else
    (parseDigits? cs).map (fun m => (m : Int))

/-- Decimal rendering of a Python `int` by `str`/f-string formatting: digits
for a non-negative value, a leading minus sign otherwise.  Digits are
produced by `Nat.toDigits 10`, the decimal digit-character run. -/
def intChars (i : Int) : List Char :=
  if i < 0 then '-' :: Nat.toDigits 10 i.natAbs else Nat.toDigits 10 i.natAbs

/-! ## Spec parser -/

/-- Source: `pyiceberg.utils.parsing.ParseNumberFromBrackets` instances
`BUCKET_PARSER`/`TRUNCATE_PARSER` are constructed from a keyword
(lines 62-63). -/
structure ParseNumberFromBrackets where
  keyword : List Char
deriving DecidableEq, Repr

/-- Modelled from the spec: the body of
`pyiceberg.utils.parsing.ParseNumberFromBrackets.match` is not among the
provided sources.  Spec §4.1 rules 3-4: a specifier with prefix
`keyword ++ "["` and suffix `"]"` has the enclosed substring parsed as a
positive integer; a non-integer substring or a value `≤ 0` — and likewise a
specifier without that prefix/suffix — is a `ParseError`. -/
def ParseNumberFromBrackets.matchNumber (p : ParseNumberFromBrackets) (v : List Char) :
    Except ParseError Int :=
  if startsWithL (p.keyword ++ ['[']) v ∧ v.getLast? = some ']' then
    match parseIntL ((v.drop (p.keyword.length + 1)).dropLast) with
    | some n =>
        if 0 < n then .ok n
        else .error (.parseError ("Could not match ".data ++ v))
    | none => .error (.parseError ("Could not match ".data ++ v))
  else
    .error (.parseError ("Could not match ".data ++ v))

/-- Source line 57: `IDENTITY = "identity"`. -/
def IDENTITY : List Char := "identity".data

/-- Source line 58: `VOID = "void"`. -/
def VOID : List Char := "void".data

/-- Source line 59: `BUCKET = "bucket"`. -/
def BUCKET : List Char := "bucket".data

/-- Source line 60: `TRUNCATE = "truncate"`. -/
def TRUNCATE : List Char := "truncate".data

/-- Source line 62: `BUCKET_PARSER = ParseNumberFromBrackets(BUCKET)`. -/
def BUCKET_PARSER : ParseNumberFromBrackets := ⟨BUCKET⟩

/-- Source line 63: `TRUNCATE_PARSER = ParseNumberFromBrackets(TRUNCATE)`.
Never used by `Transform.validate` (see line 94). -/
def TRUNCATE_PARSER : ParseNumberFromBrackets := ⟨TRUNCATE⟩

/-- The five transform variants (classes `IdentityTransform`,
`VoidTransform`, `BucketTransform`, `TruncateTransform`,
`UnknownTransform`).  `bucketT`/`truncateT` carry the `int` constructor
argument; `unknownT` carries the `_transform` raw specifier string
(line 397). -/
inductive Transform
  | identityT
  | voidT
  | bucketT (num_buckets : Int)
  | truncateT (width : Int)
  | unknownT (raw : List Char)
deriving DecidableEq, Repr

/-- The `__root__` canonical specifier string each constructor stores:
`"identity"` (line 232), `"void"` (line 415), `f"bucket[{num_buckets}]"`
(line 148), `f"truncate[{width}]"` (line 275), and the fixed literal
`"unknown"` for `UnknownTransform` (line 391). -/
def Transform.root : Transform → List Char
  | .identityT => "identity".data
  | .voidT => "void".data
  | .bucketT n => "bucket[".data ++ intChars n ++ "]".data
  | .truncateT w => "truncate[".data ++ intChars w ++ "]".data
  | .unknownT _ => "unknown".data

/-- Source lines 128-131: `Transform.__eq__` compares the `__root__`
canonical strings (between two transforms; a non-transform is unequal). -/
def Transform.eq (a b : Transform) : Bool := a.root == b.root

/-- Source lines 82-97: `Transform.validate` parses a specifier string.
Note line 94 of the source: the `truncate`-prefixed branch passes the
specifier to `BUCKET_PARSER`, not `TRUNCATE_PARSER`. -/
def Transform.validate (v : List Char) : Except ParseError Transform :=
  if v = IDENTITY then .ok .identityT
  else if v = VOID then .ok .voidT
  else if startsWithL BUCKET v then
    (BUCKET_PARSER.matchNumber v).map Transform.bucketT
  else if startsWithL TRUNCATE v then
    (BUCKET_PARSER.matchNumber v).map Transform.truncateT
  else .ok (.unknownT v)

/-! ## Hash / encode engine

The byte encodings of `BucketTransform.transform` (lines 179-208) and the
32-bit Murmur3 hash of the external `mmh3` library (spec §6 pins the
algorithm: Murmur3 x86 32-bit, seed 0, result a signed 32-bit integer).
32-bit words are carried as `Nat` reduced modulo `2^32`. -/

/-- 32-bit left rotation. -/
def rotl32 (x r : Nat) : Nat := ((x <<< r) ||| (x >>> (32 - r))) % 2 ^ 32

/-- Murmur3 constant scramble of one 32-bit block. -/
def mm3Mix (k : Nat) : Nat :=
  (rotl32 ((k * 0xcc9e2d51) % 2 ^ 32) 15 * 0x1b873593) % 2 ^ 32

/-- Murmur3 body step for one full 32-bit block. -/
def mm3Step (h k : Nat) : Nat :=
  (rotl32 (h ^^^ mm3Mix k) 13 * 5 + 0xe6546b64) % 2 ^ 32

/-- Little-endian value of a byte list. -/
def leBytes : List UInt8 → Nat
  | [] => 0
  | b :: bs => b.toNat + 256 * leBytes bs

/-- Murmur3 body: consume the 4-byte blocks, returning the running hash and
the remaining tail of fewer than 4 bytes. -/
def mm3Body (h : Nat) : List UInt8 → Nat × List UInt8
  | b0 :: b1 :: b2 :: b3 :: rest => mm3Body (mm3Step h (leBytes [b0, b1, b2, b3])) rest
  | rest => (h, rest)

/-- Murmur3 tail: xor in the scrambled final partial block, if any. -/
def mm3Tail (h : Nat) : List UInt8 → Nat
  | [] => h
  | bs => h ^^^ mm3Mix (leBytes bs)

/-- Murmur3 finalization mix. -/
def fmix32 (h : Nat) : Nat :=
  let h := h ^^^ (h >>> 16)
  let h := (h * 0x85ebca6b) % 2 ^ 32
  let h := h ^^^ (h >>> 13)
  let h := (h * 0xc2b2ae35) % 2 ^ 32
  h ^^^ (h >>> 16)

/-- Modelled from the spec: the external `mmh3.hash` — Murmur3 x86 32-bit of
a byte sequence with seed 0, returned as a signed 32-bit integer (spec §6). -/
def mmh3Hash (bs : List UInt8) : Int :=
  let body := mm3Body 0 bs
  let h := fmix32 ((mm3Tail body.1 body.2 ^^^ bs.length) % 2 ^ 32)
  if h < 2 ^ 31 then (h : Int) else (h : Int) - 2 ^ 32

/-- The low `count` bytes of a value, little-endian. -/
def natLEBytes : Nat → Nat → List UInt8
  | 0, _ => []
  | k + 1, n => UInt8.ofNat (n % 256) :: natLEBytes k (n / 256)

/-- `struct.pack("<q", v)` (line 184): the 8-byte little-endian
two's-complement encoding of a signed 64-bit integer. -/
def packLEq (v : Int) : List UInt8 := natLEBytes 8 (v.emod (2 ^ 64)).toNat

/-- One 8-byte big-endian group of `struct.pack(">QQ", hi, lo)`
(lines 200-204). -/
def packBE8 (n : Nat) : List UInt8 := (natLEBytes 8 n).reverse

/-- The 16-byte UUID encoding (lines 199-205): high then low 64 bits of the
128-bit value, each big-endian. -/
def uuidBytes (u : Nat) : List UInt8 :=
  packBE8 ((u >>> 64) % 2 ^ 64) ++ packBE8 (u % 2 ^ 64)

/-- Smallest byte count `k ≥ k0` whose signed range holds `v` (with a fuel
bound large enough for every reachable value). -/
def tcLenFrom : Nat → Nat → Int → Nat
  | 0, k, _ => k
  | f + 1, k, v =>
      if -(2 : Int) ^ (8 * k - 1) ≤ v ∧ v < 2 ^ (8 * k - 1) then k
      else tcLenFrom f (k + 1) v

/-- Modelled from the spec: `pyiceberg.utils.decimal.decimal_to_bytes` is
not among the provided sources.  Spec §4.3: the minimal two's-complement
big-endian byte encoding of the decimal's unscaled integer value. -/
def decimal_to_bytes (unscaled : Int) : List UInt8 :=
  let k := tcLenFrom (unscaled.natAbs + 2) 1 unscaled
  (natLEBytes k (unscaled.emod ((2 : Int) ^ (8 * k))).toNat).reverse

/-- The `int` payload a numeric hash/truncate branch reads (the Python
closures are only ever applied to values of the bound source type). -/
def PyValue.asInt : PyValue → Int
  | .int i => i
  | _ => 0

/-- UTF-8 encoding of one char — `mmh3.hash` of a Python `str` hashes its
UTF-8 bytes. -/
def charUTF8 (c : Char) : List UInt8 :=
  let n := c.toNat
  if n < 0x80 then [UInt8.ofNat n]
  else if n < 0x800 then
    [UInt8.ofNat (0xC0 ||| (n >>> 6)), UInt8.ofNat (0x80 ||| (n &&& 0x3F))]
  else if n < 0x10000 then
    [UInt8.ofNat (0xE0 ||| (n >>> 12)), UInt8.ofNat (0x80 ||| ((n >>> 6) &&& 0x3F)),
     UInt8.ofNat (0x80 ||| (n &&& 0x3F))]
  else
    [UInt8.ofNat (0xF0 ||| (n >>> 18)), UInt8.ofNat (0x80 ||| ((n >>> 12) &&& 0x3F)),
     UInt8.ofNat (0x80 ||| ((n >>> 6) &&& 0x3F)), UInt8.ofNat (0x80 ||| (n &&& 0x3F))]

/-- The byte payload the string/fixed/binary hash branch reads (line 194):
UTF-8 bytes of a string, the raw bytes of a byte value. -/
def PyValue.asBytes : PyValue → List UInt8
  | .str s => s.flatMap charUTF8
  | .bytes b => b
  | _ => []

/-- The unscaled-integer payload the decimal branches read. -/
def PyValue.asUnscaled : PyValue → Int
  | .dec u _ => u
  | _ => 0

/-- The 128-bit payload the UUID hash branch reads (`v.int`, line 202). -/
def PyValue.asUuid : PyValue → Nat
  | .uuid n => n
  | _ => 0

/-! ## Transform variants -/

/-- Source lines 164-177: `BucketTransform.can_transform` allow-list. -/
def BucketTransform.can_transform : IcebergType → Bool
  | .integer | .date | .long | .time | .timestamp | .timestamptz
  | .decimal | .string | .fixed | .binary | .uuid => true
  | _ => false

/-- Source lines 161-162: `BucketTransform.result_type` is `IntegerType`. -/
def BucketTransform.result_type (_ : IcebergType) : IcebergType := .integer

/-- Source lines 179-212: `BucketTransform.transform` selects a per-type
hash function, raising `ValueError` (an unsupported-transform failure, spec
§7) for any other source type, and wraps it as
`lambda v: (hash_func(v) & IntegerType.max) % self._num_buckets if v else
None` (line 211).  `h & 0x7FFFFFFF` is written as `h.fmod (2^31)`, its
arithmetic value; Python's `%` is `Int.fmod`. -/
def BucketTransform.transform (num_buckets : Int) (source : IcebergType) :
    Except UnsupportedTransformError (PyValue → PyValue) :=
  let hashFunc? : Option (PyValue → Int) :=
    match source with
    | .integer | .long | .date | .time | .timestamp | .timestamptz =>
        some (fun v => mmh3Hash (packLEq v.asInt))
    | .decimal => some (fun v => mmh3Hash (decimal_to_bytes v.asUnscaled))
    | .string | .fixed | .binary => some (fun v => mmh3Hash v.asBytes)
    | .uuid => some (fun v => mmh3Hash (uuidBytes v.asUuid))
    | _ => none
  match hashFunc? with
  | some hashFunc =>
      .ok (fun v =>
        if v.truthy then .int (((hashFunc v).fmod (IntegerTypeMax + 1)).fmod num_buckets)
        else .none)
  | none => .error (.unsupported "Unknown type".data)

/-- Source lines 235-236: `IdentityTransform.transform` returns
`lambda v: v` for every source type (no capability gate, no truthiness
wrapper — `None` maps to `None` because the lambda is the identity). -/
def IdentityTransform.transform (_ : IcebergType) : PyValue → PyValue := fun v => v

/-- Source lines 238-239. -/
def IdentityTransform.can_transform (source : IcebergType) : Bool := source.is_primitive

/-- Source lines 241-242. -/
def IdentityTransform.result_type (source : IcebergType) : IcebergType := source

/-- Source lines 278-279: `TruncateTransform.can_transform` allow-list. -/
def TruncateTransform.can_transform : IcebergType → Bool
  | .integer | .long | .string | .binary | .decimal => true
  | _ => false

/-- Source lines 281-282. -/
def TruncateTransform.result_type (source : IcebergType) : IcebergType := source

/-- Modelled from the spec: `pyiceberg.utils.decimal.truncate_decimal`
(called at line 311) is not among the provided sources.  Spec §4.4: truncate
the unscaled value to the nearest lower multiple of the width at the same
scale. -/
def truncate_decimal (unscaled : Int) (scale : Nat) (width : Int) : PyValue :=
  .dec (unscaled - unscaled.fmod width) scale

/-- Source lines 296-316: `TruncateTransform.transform` selects a per-type
truncation, raising `ValueError` (an unsupported-transform failure, spec §7)
for any other source type, and wraps it as
`lambda v: truncate_func(v) if v else None` (line 316).
The integer branch is `v - v % self._width` with Python `%` = `Int.fmod`;
the string/binary branch is the slice `v[0 : min(self._width, len(v))]`,
whose bound is a `min` of the `int` width and the length (the slice of the
nonnegative widths a `PositiveInt` field admits is `List.take`). -/
def TruncateTransform.transform (width : Int) (source : IcebergType) :
    Except UnsupportedTransformError (PyValue → PyValue) :=
  let truncFunc? : Option (PyValue → PyValue) :=
    match source with
    | .integer | .long =>
        some (fun v =>
          match v with
          | .int i => .int (i - i.fmod width)
          | v => v)
    | .string | .binary =>
        some (fun v =>
          match v with
          | .str s => .str (s.take (min width (s.length : Int)).toNat)
          | .bytes b => .bytes (b.take (min width (b.length : Int)).toNat)
          | v => v)
    | .decimal =>
        some (fun v =>
          match v with
          | .dec u sc => truncate_decimal u sc width
          | v => v)
    | _ => none
  match truncFunc? with
  | some truncFunc =>
      .ok (fun v => if v.truthy then truncFunc v else .none)
  | none => .error (.unsupported "Cannot truncate for type".data)

/-- `Transform.isTruncateT` — the `isinstance(other, TruncateTransform)`
test of line 322. -/
def Transform.isTruncateT : Transform → Bool
  | .truncateT _ => true
  | _ => false

/-- The `width` read at line 326 (only read after the `isinstance` guard;
the default is never reached on a guarded path). -/
def Transform.truncWidth : Transform → Int
  | .truncateT w => w
  | _ => 0

/-- Source lines 318-328: `TruncateTransform.satisfies_order_of`.  The
privately bound `_source_type` of each side (`self.source_type`,
`other.source_type`) is passed explicitly: it is modelled from the spec
(§3), which binds a source type to a transform at call time; no code in
`transforms.py` assigns the private field. -/
def TruncateTransform.satisfies_order_of (width : Int) (source_type : IcebergType)
    (other : Transform) (other_source_type : IcebergType) : Bool :=
  if Transform.eq (.truncateT width) other then true
  else if source_type == .string && other.isTruncateT && other_source_type == .string then
    decide (other.truncWidth ≤ width)
  else false

/-- Source lines 399-400: `UnknownTransform.transform` raises
`AttributeError` (`f"Cannot apply unsupported transform: {self}"`, with
`str(self)` the fixed root `"unknown"`) for every source type. -/
def UnknownTransform.transform (_raw : List Char) (_source : IcebergType) :
    Except UnsupportedTransformError (PyValue → PyValue) :=
  .error (.unsupported "Cannot apply unsupported transform: unknown".data)

/-- Source lines 402-403. -/
def UnknownTransform.can_transform (_ : IcebergType) : Bool := false

/-- Source lines 405-406. -/
def UnknownTransform.result_type (_ : IcebergType) : IcebergType := .string

/-- Source lines 417-418: `VoidTransform.transform` returns
`lambda v: None`. -/
def VoidTransform.transform (_ : IcebergType) : PyValue → PyValue := fun _ => .none

/-- Source lines 420-421. -/
def VoidTransform.can_transform (_ : IcebergType) : Bool := true

/-- Source lines 423-424. -/
def VoidTransform.result_type (source : IcebergType) : IcebergType := source

/-- Variant dispatch of the abstract `transform` method. -/
def Transform.transform : Transform → IcebergType →
    Except UnsupportedTransformError (PyValue → PyValue)
  | .identityT, source => .ok (IdentityTransform.transform source)
  | .voidT, source => .ok (VoidTransform.transform source)
  | .bucketT n, source => BucketTransform.transform n source
  | .truncateT w, source => TruncateTransform.transform w source
  | .unknownT raw, source => UnknownTransform.transform raw source

/-- Variant dispatch of the abstract `can_transform` method. -/
def Transform.can_transform : Transform → IcebergType → Bool
  | .identityT, source => IdentityTransform.can_transform source
  | .voidT, source => VoidTransform.can_transform source
  | .bucketT _, source => BucketTransform.can_transform source
  | .truncateT _, source => TruncateTransform.can_transform source
  | .unknownT _, source => UnknownTransform.can_transform source

/-- Variant dispatch of the abstract `result_type` method. -/
def Transform.result_type : Transform → IcebergType → IcebergType
  | .identityT, source => IdentityTransform.result_type source
  | .voidT, source => VoidTransform.result_type source
  | .bucketT _, source => BucketTransform.result_type source
  | .truncateT _, source => TruncateTransform.result_type source
  | .unknownT _, source => UnknownTransform.result_type source

/-- `preserves_order`: `True` for Identity (line 245) and Truncate
(line 285), the base default `False` otherwise (line 113). -/
def Transform.preserves_order : Transform → Bool
  | .identityT => true
  | .truncateT _ => true
  | _ => false

/-- Apply a (possibly failed) value-mapping function to one value. -/
def applyT (e : Except UnsupportedTransformError (PyValue → PyValue)) (v : PyValue) :
    Except UnsupportedTransformError PyValue :=
  e.map (fun f => f v)

/-! ## Spec-side predicates

Definitions that follow the wording of the spec (§4.1), used to state
refinement-style claims about the parser.  They are deliberately written
from the spec's words, to be compared with the source-derived
`Transform.validate`. -/

/-- Spec §4.1 rules 3-4, bracketed-form premise as worded in the claims:
the specifier has prefix `keyword ++ "["` and suffix `"]"`. -/
def specBracketForm (keyword s : List Char) : Bool :=
  startsWithL (keyword ++ ['[']) s && s.getLast? == some ']'

/-- Spec §4.1 rules 3-4 in full: bracketed form whose enclosed substring
parses as a strictly positive integer. -/
def specPositiveBracket (keyword s : List Char) : Bool :=
  specBracketForm keyword s &&
    (match parseIntL ((s.drop (keyword.length + 1)).dropLast) with
     | some n => decide (0 < n)
     | none => false)

/-- Spec §4.1: a specifier matched by parse rules 1-4. -/
def specMatchedByRules14 (s : List Char) : Bool :=
  s == IDENTITY || s == VOID || specPositiveBracket BUCKET s ||
    specPositiveBracket TRUNCATE s

/-! ## Decimal-rendering round-trip lemmas -/

theorem digitChar_isDigit {d : Nat} (h : d < 10) : (Nat.digitChar d).isDigit = true := by
  interval_cases d <;> decide

theorem digitChar_toNat {d : Nat} (h : d < 10) : (Nat.digitChar d).toNat - 48 = d := by
  interval_cases d <;> decide

theorem digitChar_ne_minus {d : Nat} (h : d < 10) : Nat.digitChar d ≠ '-' := by
  interval_cases d <;> decide

theorem toDigitsCore_eq (fuel : Nat) :
    ∀ (n : Nat) (acc : List Char), n ≠ 0 → n < fuel →
      Nat.toDigitsCore 10 fuel n acc = ((Nat.digits 10 n).map Nat.digitChar).reverse ++ acc := by
  induction fuel with
  | zero => intro n acc _ h; omega
  | succ f ih =>
    intro n acc hne hlt
    rw [Nat.toDigitsCore]
    by_cases h10 : n / 10 = 0
    · have hn10 : n < 10 := by omega
      simp only [h10, if_pos]
      rw [Nat.digits_of_lt 10 n hne hn10, Nat.mod_eq_of_lt hn10]
      simp
    · have hq_pos : 0 < n / 10 := Nat.pos_of_ne_zero h10
      have hq_lt : n / 10 < f := by
        have h1 : n / 10 < n := Nat.div_lt_self (Nat.pos_of_ne_zero hne) (by omega)
        omega
      simp only [h10, if_neg, ite_false]
      rw [ih (n / 10) _ h10 hq_lt]
      rw [Nat.digits_def' (b := 10) (by norm_num) (Nat.pos_of_ne_zero hne)]
      simp

theorem toDigits_eq_digits (n : Nat) (hne : n ≠ 0) :
    Nat.toDigits 10 n = ((Nat.digits 10 n).map Nat.digitChar).reverse := by
  have h := toDigitsCore_eq (n + 1) n [] hne (by omega)
  simpa [Nat.toDigits] using h

theorem foldl_decimal (ds : List Nat) :
    ∀ a : Nat, List.foldl (fun acc d => 10 * acc + d) a ds
      = a * 10 ^ ds.length + Nat.ofDigits 10 ds.reverse := by
  induction ds with
  | nil => intro a; simp
  | cons d ds ih =>
    intro a
    simp only [List.foldl_cons, List.reverse_cons, List.length_cons]
    rw [ih, Nat.ofDigits_append]
    simp [Nat.ofDigits_singleton]
    ring

theorem foldl_digitChars (ds : List Nat) :
    ∀ a : Nat, (∀ d ∈ ds, d < 10) →
      List.foldl (fun acc c => 10 * acc + (c.toNat - 48)) a (ds.map Nat.digitChar)
        = List.foldl (fun acc d => 10 * acc + d) a ds := by
  induction ds with
  | nil => intro a _; rfl
  | cons d ds ih =>
    intro a hd
    simp only [List.map_cons, List.foldl_cons]
    rw [digitChar_toNat (hd d (by simp)), ih _ (fun x hx => hd x (by simp [hx]))]

theorem parseDigits_toDigits (n : Nat) (hne : n ≠ 0) :
    parseDigits? (Nat.toDigits 10 n) = some n := by
  have hlt : ∀ d ∈ Nat.digits 10 n, d < 10 :=
    fun d hd => Nat.digits_lt_base (by norm_num) hd
  rw [toDigits_eq_digits n hne, parseDigits?, if_pos]
  · congr 1
    rw [← List.map_reverse, foldl_digitChars _ 0
      (fun d hd => hlt d (List.mem_reverse.mp hd)), foldl_decimal]
    simp [Nat.ofDigits_digits]
  · constructor
    · simp [Nat.digits_ne_nil_iff_ne_zero.mpr hne]
    · rw [List.all_eq_true]
      intro c hc
      rw [List.mem_reverse, List.mem_map] at hc
      obtain ⟨d, hd, rfl⟩ := hc
      exact digitChar_isDigit (hlt d hd)

theorem toDigits_ne_nil (n : Nat) (hne : n ≠ 0) : Nat.toDigits 10 n ≠ [] := by
  rw [toDigits_eq_digits n hne]
  simp [Nat.digits_ne_nil_iff_ne_zero.mpr hne]

theorem toDigits_no_minus (n : Nat) (hne : n ≠ 0) :
    ∀ c ∈ Nat.toDigits 10 n, c ≠ '-' := by
  rw [toDigits_eq_digits n hne]
  intro c hc
  rw [List.mem_reverse, List.mem_map] at hc
  obtain ⟨d, hd, rfl⟩ := hc
  exact digitChar_ne_minus (Nat.digits_lt_base (by norm_num) hd)

theorem parseIntL_toDigits (n : Nat) (hne : n ≠ 0) :
    parseIntL (Nat.toDigits 10 n) = some (n : Int) := by
  rw [parseIntL, if_neg, parseDigits_toDigits n hne]
  · rfl
  · intro h
    rcases hds : Nat.toDigits 10 n with _ | ⟨c, rest⟩
    · exact toDigits_ne_nil n hne hds
    · rw [hds] at h
      simp only [List.head?_cons, Option.some.injEq] at h
      exact toDigits_no_minus n hne c (by rw [hds]; exact List.mem_cons_self c rest) h

/-! ## Parser lemmas -/

theorem startsWithL_append (p r : List Char) : startsWithL p (p ++ r) = true := by
  induction p with
  | nil => rfl
  | cons c cs ih => simp [startsWithL, ih]

theorem BUCKET_chars : BUCKET = ['b', 'u', 'c', 'k', 'e', 't'] := rfl

theorem TRUNCATE_chars : TRUNCATE = ['t', 'r', 'u', 'n', 'c', 'a', 't', 'e'] := rfl

theorem IDENTITY_chars : IDENTITY = ['i', 'd', 'e', 'n', 't', 'i', 't', 'y'] := rfl

theorem VOID_chars : VOID = ['v', 'o', 'i', 'd'] := rfl

theorem matchNumber_ok_pos (p : ParseNumberFromBrackets) (v : List Char) (n : Int)
    (h : p.matchNumber v = .ok n) : 0 < n := by
  rw [ParseNumberFromBrackets.matchNumber] at h
  split at h
  · split at h
    · split at h
      · cases h; assumption
      · cases h
    · cases h
  · cases h

theorem matchNumber_roundtrip (p : ParseNumberFromBrackets) (n : Nat) (hne : n ≠ 0) :
    p.matchNumber (p.keyword ++ '[' :: (Nat.toDigits 10 n ++ [']'])) = .ok (n : Int) := by
  rw [ParseNumberFromBrackets.matchNumber, if_pos]
  · have hdrop : ((p.keyword ++ '[' :: (Nat.toDigits 10 n ++ [']'])).drop
        (p.keyword.length + 1)).dropLast = Nat.toDigits 10 n := by
      rw [show p.keyword ++ '[' :: (Nat.toDigits 10 n ++ [']'])
            = (p.keyword ++ ['[']) ++ (Nat.toDigits 10 n ++ [']']) by simp,
        List.drop_left' (by simp), List.dropLast_concat]
    rw [hdrop, parseIntL_toDigits n hne]
    simp [hne, Nat.pos_of_ne_zero]
  · constructor
    · rw [show p.keyword ++ '[' :: (Nat.toDigits 10 n ++ [']'])
            = (p.keyword ++ ['[']) ++ (Nat.toDigits 10 n ++ [']']) by simp]
      exact startsWithL_append _ _
    · rw [show p.keyword ++ '[' :: (Nat.toDigits 10 n ++ [']'])
            = (p.keyword ++ ('[' :: Nat.toDigits 10 n)) ++ [']'] by simp]
      exact List.getLast?_concat _

theorem truncate_headed_fails_bucket_parse (v : List Char)
    (h : startsWithL TRUNCATE v = true) :
    ∃ e, BUCKET_PARSER.matchNumber v = .error e := by
  rcases v with _ | ⟨c, cs⟩
  · rw [TRUNCATE_chars] at h; simp [startsWithL] at h
  · have hc : c = 't' := by
      rw [TRUNCATE_chars] at h
      simp only [startsWithL, Bool.and_eq_true, beq_iff_eq] at h
      exact h.1.symm
    subst hc
    rw [ParseNumberFromBrackets.matchNumber, if_neg]
    · exact ⟨_, rfl⟩
    · intro hcontra
      have : startsWithL (BUCKET_PARSER.keyword ++ ['[']) ('t' :: cs) = false := by
        show startsWithL (BUCKET ++ ['[']) ('t' :: cs) = false
        rw [BUCKET_chars]
        simp [startsWithL]
      rw [this] at hcontra
      exact absurd hcontra.1 (by simp)

theorem validate_bucket_roundtrip (n : Nat) (hne : n ≠ 0) :
    Transform.validate (BUCKET ++ '[' :: (Nat.toDigits 10 n ++ [']']))
      = .ok (.bucketT (n : Int)) := by
  rw [Transform.validate, if_neg, if_neg, if_pos]
  · rw [show BUCKET = BUCKET_PARSER.keyword from rfl]
    rw [matchNumber_roundtrip BUCKET_PARSER n hne]
    rfl
  · rw [show BUCKET ++ '[' :: (Nat.toDigits 10 n ++ [']'])
        = BUCKET ++ ('[' :: (Nat.toDigits 10 n ++ [']'])) from rfl]
    exact startsWithL_append BUCKET _
  · intro h
    have := congrArg List.head? h
    rw [BUCKET_chars, VOID_chars] at this
    simp at this
  · intro h
    have := congrArg List.head? h
    rw [BUCKET_chars, IDENTITY_chars] at this
    simp at this

theorem validate_truncate_fails (n : Nat) :
    ∃ e, Transform.validate (TRUNCATE ++ '[' :: (Nat.toDigits 10 n ++ [']'])) = .error e := by
  have hstart : startsWithL TRUNCATE (TRUNCATE ++ '[' :: (Nat.toDigits 10 n ++ [']'])) = true :=
    startsWithL_append TRUNCATE _
  obtain ⟨e, he⟩ := truncate_headed_fails_bucket_parse _ hstart
  refine ⟨e, ?_⟩
  rw [Transform.validate, if_neg, if_neg, if_neg, if_pos hstart, he]
  · rfl
  · rw [show (TRUNCATE ++ '[' :: (Nat.toDigits 10 n ++ [']'])) = 't' :: ("runcate".data ++ '[' :: (Nat.toDigits 10 n ++ [']'])) from rfl]
    rw [BUCKET_chars]
    simp [startsWithL]
  · intro h
    have := congrArg List.head? h
    rw [TRUNCATE_chars, VOID_chars] at this
    simp at this
  · intro h
    have := congrArg List.head? h
    rw [TRUNCATE_chars, IDENTITY_chars] at this
    simp at this

theorem validate_ok_bucket_pos (s : List Char) (n : Int)
    (h : Transform.validate s = .ok (.bucketT n)) : 0 < n := by
  rw [Transform.validate] at h
  split at h
  · cases h
  · split at h
    · cases h
    · split at h
      · rcases hm : BUCKET_PARSER.matchNumber s with e | m
        · rw [hm] at h; cases h
        · rw [hm] at h
          cases h
          exact matchNumber_ok_pos _ _ _ hm
      · split at h
        · rcases hm : BUCKET_PARSER.matchNumber s with e | m
          · rw [hm] at h; cases h
          · rw [hm] at h; cases h
        · cases h

theorem validate_never_truncate (s : List Char) (w : Int)
    (h : Transform.validate s = .ok (.truncateT w)) : False := by
  rw [Transform.validate] at h
  split at h
  · cases h
  · split at h
    · cases h
    · split at h
      · rcases hm : BUCKET_PARSER.matchNumber s with e | m
        · rw [hm] at h; cases h
        · rw [hm] at h; cases h
      · split at h
        · next hstart =>
          obtain ⟨e, he⟩ := truncate_headed_fails_bucket_parse s hstart
          rw [he] at h
          cases h
        · cases h

theorem bucketOpen_chars : "bucket[".data = BUCKET ++ ['['] := rfl

theorem intChars_ofNat (n : Nat) : intChars (n : Int) = Nat.toDigits 10 n := by
  rw [intChars, if_neg (by omega : ¬((n : Int) < 0))]
  simp

/-! ## Claims C1-C4: the spec parser -/

/-- C1 (code bug): parsing the specifier `"truncate[5]"` is rejected with a
`ParseError`, although the claim (and spec §4.1 rule 4) says it yields
`Truncate(5)`: line 94 of `transforms.py` passes the specifier to
`BUCKET_PARSER`, whose keyword `"bucket"` cannot match a
`"truncate"`-prefixed string — while `TRUNCATE_PARSER`, defined at line 63
for exactly this purpose, is never used and would have returned `5`. -/
theorem C1_truncate_specifier_rejected :
    (∃ e, Transform.validate "truncate[5]".data = .error e) ∧
    TRUNCATE_PARSER.matchNumber "truncate[5]".data = .ok 5 :=
  ⟨⟨_, rfl⟩, rfl⟩

/-- C2 (counterexample): the round-trip claim fails as stated.  The
specifier `"truncate[5]"` is matched by spec parse rule 4 yet parsing it
does not return a transform whose canonical string is `"truncate[5]"` (it
raises a `ParseError`, see C1); and the specifier `"bucket[007]"` is matched
by rule 3 ( `int("007") = 7 > 0` ) yet parses to a transform whose canonical
string is `"bucket[7]" ≠ "bucket[007]"`. -/
theorem C2_roundtrip_counterexample :
    (specMatchedByRules14 "truncate[5]".data = true ∧
      (Transform.validate "truncate[5]".data).map Transform.root ≠ .ok "truncate[5]".data) ∧
    (specMatchedByRules14 "bucket[007]".data = true ∧
      (Transform.validate "bucket[007]".data).map Transform.root = .ok "bucket[7]".data) := by
  exact ⟨⟨rfl, fun h => Except.noConfusion h⟩, ⟨rfl, rfl⟩⟩

/-- C2 (amended): round-trip of parsing and canonical-string rendering holds
for `"identity"`, `"void"`, and every `"bucket[N]"` whose parameter is a
positive integer written canonically (the decimal digit run `Nat.toDigits`,
no leading zeros or sign); `"truncate[W]"` specifiers do not round-trip
because parsing them fails (the C1 parser-routing bug). -/
theorem C2_roundtrip_amended (n : Nat) (h : 0 < n) :
    (Transform.validate IDENTITY).map Transform.root = .ok IDENTITY ∧
    (Transform.validate VOID).map Transform.root = .ok VOID ∧
    (Transform.validate (BUCKET ++ '[' :: (Nat.toDigits 10 n ++ [']']))).map Transform.root
      = .ok (BUCKET ++ '[' :: (Nat.toDigits 10 n ++ [']'])) ∧
    (∃ e, Transform.validate (TRUNCATE ++ '[' :: (Nat.toDigits 10 n ++ [']'])) = .error e) := by
  refine ⟨rfl, rfl, ?_, validate_truncate_fails n⟩
  rw [validate_bucket_roundtrip n (by omega)]
  show Except.ok (Transform.root (.bucketT (n : Int)))
    = Except.ok (BUCKET ++ '[' :: (Nat.toDigits 10 n ++ [']']))
  congr 1

/-- Witness for C2 (amended) at `N = 16`. -/
theorem C2_roundtrip_amended_witness :
    0 < 16 ∧
    (Transform.validate (BUCKET ++ '[' :: (Nat.toDigits 10 16 ++ [']']))).map Transform.root
      = .ok (BUCKET ++ '[' :: (Nat.toDigits 10 16 ++ [']'])) :=
  ⟨by decide, (C2_roundtrip_amended 16 (by decide)).2.2.1⟩

/-- C3 (confirmed): `"bucket[abc]"`, `"bucket[0]"` and `"bucket[-3]"` all
fail with a `ParseError`, and parsing never yields a Bucket or Truncate
transform with a non-positive parameter (indeed, by C1, it never yields a
Truncate transform at all).  The positivity check of the bracket parameter
lives in `ParseNumberFromBrackets.matchNumber`, which is modelled from spec
§4.1 because `pyiceberg.utils.parsing` is not among the provided sources. -/
theorem C3_nonpositive_parameters_rejected (s : List Char) (n w : Int) :
    (∃ e, Transform.validate "bucket[abc]".data = .error e) ∧
    (∃ e, Transform.validate "bucket[0]".data = .error e) ∧
    (∃ e, Transform.validate "bucket[-3]".data = .error e) ∧
    (Transform.validate s = .ok (.bucketT n) → 0 < n) ∧
    (Transform.validate s = .ok (.truncateT w) → 0 < w) := by
  refine ⟨⟨_, rfl⟩, ⟨_, rfl⟩, ⟨_, rfl⟩, validate_ok_bucket_pos s n, ?_⟩
  intro h
  exact (validate_never_truncate s w h).elim

/-- Witness for C3 at the parse `"bucket[22]"` ↦ `Bucket(22)`. -/
theorem C3_nonpositive_parameters_rejected_witness :
    0 < (22 : Int) ∧ Transform.validate "bucket[22]".data = .ok (.bucketT 22) :=
  ⟨(C3_nonpositive_parameters_rejected "bucket[22]".data 22 1).2.2.2.1 rfl, rfl⟩

/-- C4 (counterexample): the claim fails as stated.  `"bucketing"` is not
`"identity"` or `"void"` and does not have the bracketed form
`"bucket[...]"` or `"truncate[...]"`, yet parsing it raises a `ParseError`
instead of returning an Unknown transform: the source dispatches on the
*prefix* `"bucket"` (line 91) before any bracket is checked. -/
theorem C4_unknown_passthrough_counterexample :
    ("bucketing".data ≠ IDENTITY ∧ "bucketing".data ≠ VOID ∧
      specBracketForm BUCKET "bucketing".data = false ∧
      specBracketForm TRUNCATE "bucketing".data = false) ∧
    (∃ e, Transform.validate "bucketing".data = .error e) := by
  exact ⟨⟨by decide, by decide, rfl, rfl⟩, ⟨_, rfl⟩⟩

/-- C4 (amended): parsing succeeds and returns an Unknown transform
retaining the raw specifier verbatim for every specifier that is not
exactly `"identity"` or `"void"` and does not *start with* `"bucket"` or
`"truncate"`; a specifier that starts with one of those keywords but is not
a well-formed bracket specifier raises a `ParseError` instead. -/
theorem C4_unknown_passthrough_amended (s : List Char) (h1 : s ≠ IDENTITY) (h2 : s ≠ VOID)
    (h3 : startsWithL BUCKET s = false) (h4 : startsWithL TRUNCATE s = false) :
    Transform.validate s = .ok (.unknownT s) := by
  rw [Transform.validate, if_neg h1, if_neg h2, if_neg (by simp [h3]), if_neg (by simp [h4])]

/-- Witness for C4 (amended) at the spec's own example `"frobnicate"`. -/
theorem C4_unknown_passthrough_amended_witness :
    "frobnicate".data ≠ IDENTITY ∧
    Transform.validate "frobnicate".data = .ok (.unknownT "frobnicate".data) :=
  ⟨by decide, C4_unknown_passthrough_amended _ (by decide) (by decide) rfl rfl⟩

/-! ## Claims C5-C10: the transform variants -/

/-- C5 (confirmed): the Bucket and Truncate value-mapping functions return
null on an absent input, and — because the null check is the truthiness
test `if v else None` (lines 211 and 316) — on *every* falsy input
(`0`, the empty string, the empty byte sequence, a zero decimal): whenever
the mapping function exists, it sends any falsy value to `None`. -/
theorem C5_truthiness_null (n w : Int) (source : IcebergType) (v : PyValue)
    (hv : v.truthy = false) :
    applyT (BucketTransform.transform n source) v
      = (BucketTransform.transform n source).map (fun _ => PyValue.none) ∧
    applyT (TruncateTransform.transform w source) v
      = (TruncateTransform.transform w source).map (fun _ => PyValue.none) := by
  constructor
  · cases source <;> simp [BucketTransform.transform, applyT, Except.map, hv]
  · cases source <;> simp [TruncateTransform.transform, applyT, Except.map, hv]

/-- Witness for C5 at the falsy inputs `0` and `""`. -/
theorem C5_truthiness_null_witness :
    PyValue.truthy (.int 0) = false ∧
    applyT (BucketTransform.transform 16 .integer) (.int 0) = .ok .none ∧
    applyT (TruncateTransform.transform 5 .string) (.str "".data) = .ok .none :=
  ⟨rfl, ((C5_truthiness_null 16 5 .integer (.int 0) rfl).1).trans rfl,
    ((C5_truthiness_null 16 5 .string (.str "".data) rfl).2).trans rfl⟩

/-- C6 (confirmed): for positive width `w`, the Truncate mapping bound to an
integer/long source sends every input with a non-null result (every nonzero
`i`, by C5) to `i - (i mod w)` with floor-style modulo — the largest
multiple of `w` not exceeding `i` — and bound to a string or binary source
it sends every such input to its first `min(w, length)` elements. -/
theorem C6_truncate_values (w : Int) (hw : 0 < w) (i : Int) (hi : i ≠ 0)
    (s : List Char) (hs : s ≠ []) (b : List UInt8) (hb : b ≠ []) :
    (applyT (TruncateTransform.transform w .integer) (.int i) = .ok (.int (i - i.fmod w)) ∧
     applyT (TruncateTransform.transform w .long) (.int i) = .ok (.int (i - i.fmod w))) ∧
    (w ∣ (i - i.fmod w) ∧ i - i.fmod w ≤ i ∧ i < (i - i.fmod w) + w) ∧
    (applyT (TruncateTransform.transform w .string) (.str s)
        = .ok (.str (s.take (min w.toNat s.length))) ∧
     applyT (TruncateTransform.transform w .binary) (.bytes b)
        = .ok (.bytes (b.take (min w.toNat b.length)))) := by
  have hti : (PyValue.int i).truthy = true := by simp [PyValue.truthy, hi]
  have hts : (PyValue.str s).truthy = true := by
    cases s with
    | nil => exact absurd rfl hs
    | cons c cs => rfl
  have htb : (PyValue.bytes b).truthy = true := by
    cases b with
    | nil => exact absurd rfl hb
    | cons x xs => rfl
  have hmins : (min w (s.length : Int)).toNat = min w.toNat s.length := by omega
  have hminb : (min w (b.length : Int)).toNat = min w.toNat b.length := by omega
  refine ⟨⟨?_, ?_⟩, ⟨⟨i.fdiv w, by rw [Int.fmod_def]; ring⟩, ?_, ?_⟩, ?_, ?_⟩
  · simp [TruncateTransform.transform, applyT, Except.map, hti]
  · simp [TruncateTransform.transform, applyT, Except.map, hti]
  · have := Int.fmod_nonneg' i hw
    omega
  · have := Int.fmod_lt_of_pos i hw
    omega
  · simp [TruncateTransform.transform, applyT, Except.map, hts, hmins]
  · simp [TruncateTransform.transform, applyT, Except.map, htb, hminb]

/-- Witness for C6 at the spec's string example
`Truncate(5).transform(string)("abcdefg") = "abcde"` and at the integer `7`. -/
theorem C6_truncate_values_witness :
    0 < (5 : Int) ∧
    applyT (TruncateTransform.transform 5 .string) (.str "abcdefg".data)
      = .ok (.str "abcde".data) ∧
    applyT (TruncateTransform.transform 5 .integer) (.int 7) = .ok (.int 5) := by
  have h := C6_truncate_values 5 (by decide) 7 (by decide) "abcdefg".data (by decide)
    [1] (by decide)
  refine ⟨by decide, ?_, ?_⟩
  · rw [h.2.2.1]
    rfl
  · rw [h.1.1]
    rfl

/-- C7 (confirmed): `TruncateTransform.satisfies_order_of` returns true when
the two transforms are equal, and otherwise returns true exactly when both
sides are Truncate transforms over a string source type with
`self.width ≥ other.width`; it is a total Boolean function (never fails; the
privately bound source types are supplied as explicit arguments, modelled
from spec §3).  Includes the spec's examples
`Truncate(5).satisfies_order_of(Truncate(2))` (true) and
`Truncate(2).satisfies_order_of(Truncate(5))` (false) on strings. -/
theorem C7_truncate_satisfies_order (w : Int) (src : IcebergType) (other : Transform)
    (osrc : IcebergType) :
    (TruncateTransform.satisfies_order_of w src other osrc = true ↔
      (Transform.eq (.truncateT w) other = true ∨
        (src = .string ∧ osrc = .string ∧ ∃ w2, other = .truncateT w2 ∧ w2 ≤ w))) ∧
    TruncateTransform.satisfies_order_of w src (.truncateT w) osrc = true ∧
    TruncateTransform.satisfies_order_of 5 .string (.truncateT 2) .string = true ∧
    TruncateTransform.satisfies_order_of 2 .string (.truncateT 5) .string = false := by
  refine ⟨?_, ?_, by decide, by decide⟩
  · rw [TruncateTransform.satisfies_order_of]
    by_cases heq : Transform.eq (.truncateT w) other = true
    · simp [heq]
    · rw [if_neg heq]
      constructor
      · intro h
        split at h
        · next hguard =>
          simp only [Bool.and_eq_true, beq_iff_eq] at hguard
          obtain ⟨⟨hsrc, htr⟩, hosrc⟩ := hguard
          cases other with
          | truncateT w2 =>
              refine Or.inr ⟨hsrc, hosrc, w2, rfl, ?_⟩
              simpa [Transform.truncWidth] using h
          | identityT => exact absurd htr (by simp [Transform.isTruncateT])
          | voidT => exact absurd htr (by simp [Transform.isTruncateT])
          | bucketT m => exact absurd htr (by simp [Transform.isTruncateT])
          | unknownT r => exact absurd htr (by simp [Transform.isTruncateT])
        · cases h
      · intro h
        rcases h with h | ⟨hsrc, hosrc, ⟨w2, rfl, hle⟩⟩
        · exact absurd h heq
        · subst hsrc
          subst hosrc
          simp [Transform.isTruncateT, Transform.truncWidth, hle]
  · simp [TruncateTransform.satisfies_order_of, Transform.eq]

/-- C8 (confirmed): invoking the value-mapping function of an Unknown
transform fails with an `UnsupportedTransformError` for every source type,
`UnknownTransform.can_transform` is false for every source type, and for the
known Bucket and Truncate variants `transform` fails exactly on the source
types that fail `can_transform`. -/
theorem C8_unsupported_transform (source : IcebergType) (raw : List Char) (n w : Int) :
    (∃ e, UnknownTransform.transform raw source = .error e) ∧
    UnknownTransform.can_transform source = false ∧
    ((∃ e, BucketTransform.transform n source = .error e) ↔
      BucketTransform.can_transform source = false) ∧
    ((∃ e, TruncateTransform.transform w source = .error e) ↔
      TruncateTransform.can_transform source = false) := by
  refine ⟨⟨_, rfl⟩, rfl, ?_, ?_⟩ <;> cases source <;>
    simp [BucketTransform.transform, TruncateTransform.transform,
      BucketTransform.can_transform, TruncateTransform.can_transform]

/-- C9 (confirmed): the Identity value-mapping function returns its input
unchanged for every source type and every input — including `None`, since
the returned lambda is the identity with no truthiness wrapper — and its
`result_type` is the source type itself. -/
theorem C9_identity_transform (source : IcebergType) (v : PyValue) :
    applyT (Transform.transform .identityT source) v = .ok v ∧
    IdentityTransform.result_type source = source :=
  ⟨rfl, rfl⟩

/-- C10 (confirmed): two transforms are equal exactly when their canonical
specifier strings (`__root__`) are equal; every Unknown transform's
canonical string is the fixed literal `"unknown"`, so any two Unknown
transforms are equal regardless of their retained raw specifiers. -/
theorem C10_equality_by_root (a b : Transform) (r1 r2 : List Char) :
    (Transform.eq a b = true ↔ a.root = b.root) ∧
    Transform.eq (.unknownT r1) (.unknownT r2) = true ∧
    (Transform.unknownT r1).root = "unknown".data := by
  refine ⟨?_, ?_, rfl⟩
  · simp [Transform.eq]
  · simp [Transform.eq, Transform.root]

end Iceberg
